import Mathlib

/-!
Verification of the KDD20 hands-on tutorial notebooks
(`src/3-basics/1_load_data.ipynb`): loading the Zachery karate-club graph,
attaching node/edge features, and training a two-layer GraphSAGE network
for semi-supervised node classification.

The notebooks delegate numerics to DGL and PyTorch; we embed the notebook
code shallowly: tensors become lists of rationals, the DGL graph becomes a
record of a node count and a directed edge list, and the library calls the
notebook makes (`SAGEConv`, `F.relu`, `F.log_softmax`, `F.nll_loss`,
`torch.argmax`, `F.one_hot`, `dgl.graph`, `g.ndata` / `g.edata`
assignment) are translated to Lean functions with the library's documented
semantics.  Stages whose internals the notebook never touches (the
transcendental `exp`/`log` inside `log_softmax`, the Adam parameter
update) are carried as explicit function parameters.
-/

namespace KarateClub

/-- A homogeneous DGL graph: `numNodes` nodes with ids `0 .. numNodes-1`
and a list of directed edges `(src, dst)`. -/
structure DGLGraph where
  numNodes : Nat
  edges : List (Nat × Nat)
deriving Repr, DecidableEq

/-- `dgl.graph((src, dst))`: builds a graph whose edges pair up `src` and
`dst`; the number of nodes is inferred as the largest referenced node id
plus one (DGL's default `num_nodes` inference). -/
def dglGraph (src dst : List Nat) : DGLGraph :=
  { numNodes := ((src ++ dst).foldr max 0) + 1
    edges := List.zip src dst }

/-- In-neighbors of node `i`: sources of the edges pointing at `i`. -/
def inNeighbors (g : DGLGraph) (i : Nat) : List Nat :=
  (g.edges.filter (fun e => e.2 = i)).map (fun e => e.1)

/-- Vector addition, padding with nothing (used only on equal lengths). -/
def vadd : List ℚ → List ℚ → List ℚ
  | x :: xs, y :: ys => (x + y) :: vadd xs ys
  | [], ys => ys
  | xs, [] => xs

/-- The zero vector of dimension `d`. -/
def vzero (d : Nat) : List ℚ :=
  List.replicate d 0

/-- Scale a vector by a rational. -/
def vsmul (c : ℚ) (x : List ℚ) : List ℚ :=
  x.map (fun a => c * a)

/-- Dot product of two vectors. -/
def dotL (x y : List ℚ) : ℚ :=
  ((List.zip x y).map (fun p => p.1 * p.2)).sum

/-- Matrix-vector product: one dot product per row of `W`. -/
def matVec (W : List (List ℚ)) (x : List ℚ) : List ℚ :=
  W.map (fun row => dotL row x)

/-- Parameters of one `dgl.nn.SAGEConv(in, out, 'mean')` layer: the linear
map applied to the node's own feature, the linear map applied to the mean
of its in-neighbors' features, and the bias.  `outDim` is the output
dimension (used for the zero neighbor-mean of isolated nodes). -/
structure SAGEConvParams where
  wSelf : List (List ℚ)
  wNeigh : List (List ℚ)
  bias : List ℚ
  outDim : Nat
deriving Repr

/-- Mean of the in-neighbors' feature rows of node `i`; the zero vector of
dimension `d` when `i` has no in-edges (DGL's mean aggregation over an
empty message set). -/
def neighMean (g : DGLGraph) (x : List (List ℚ)) (d : Nat) (i : Nat) : List ℚ :=
  let ns := inNeighbors g i
  match ns with
  | [] => vzero d
  | _ => vsmul (1 / (ns.length : ℚ)) ((ns.map (fun j => x.getD j (vzero d))).foldr vadd (vzero d))

/-- One `SAGEConv` layer with `'mean'` aggregation:
`h_i = W_self · x_i + W_neigh · mean_{j → i} x_j + b`, one output row per
node of `g`. -/
def SAGEConv.apply (p : SAGEConvParams) (g : DGLGraph) (x : List (List ℚ)) :
    List (List ℚ) :=
  (List.range g.numNodes).map (fun i =>
    vadd (vadd (matVec p.wSelf (x.getD i []))
               (matVec p.wNeigh (neighMean g x p.outDim i)))
         p.bias)

/-- `F.relu` applied elementwise to a feature matrix. -/
def reluMat (x : List (List ℚ)) : List (List ℚ) :=
  x.map (fun row => row.map (fun a => max a 0))

/-- The two-layer `GraphSAGE` module of the notebook: `conv1` and `conv2`,
each a `SAGEConv(·, ·, 'mean')`. -/
structure GraphSAGE where
  conv1 : SAGEConvParams
  conv2 : SAGEConvParams

/-- `GraphSAGE.forward(self, g, in_feat)` exactly as the notebook writes
it: `h = self.conv1(g, in_feat); h = F.relu(h); h = self.conv2(g, h);
return h`. -/
def GraphSAGE.forward (net : GraphSAGE) (g : DGLGraph) (in_feat : List (List ℚ)) :
    List (List ℚ) :=
  let h := SAGEConv.apply net.conv1 g in_feat
  let h := reluMat h
  let h := SAGEConv.apply net.conv2 g h
  h

/-- C1: The model's forward pass is the composition of exactly two
neighbor-aggregation convolution layers with a ReLU applied between them
and no activation after the second: for every graph `g` and input feature
matrix `x`, `GraphSAGE.forward(g, x) = conv2(g, relu(conv1(g, x)))`. -/
theorem forward_is_conv_relu_conv (net : GraphSAGE) (g : DGLGraph)
    (x : List (List ℚ)) :
    net.forward g x =
      SAGEConv.apply net.conv2 g (reluMat (SAGEConv.apply net.conv1 g x)) :=
  rfl

/-! ## Training loss (notebook 2, cell 11)

`logp = F.log_softmax(logits, 1); loss = F.nll_loss(logp[labeled_nodes],
labels[labeled_nodes])` with `labeled_nodes = [0, 33]`.  The `exp` and
`log` inside `log_softmax` are PyTorch library transcendentals; they are
carried as explicit function parameters `ex` and `lg`. -/

/-- `F.log_softmax(m, 1)`: row-wise, `logp_ij = z_ij - log (Σ_k exp z_ik)`. -/
def logSoftmax (ex lg : ℚ → ℚ) (m : List (List ℚ)) : List (List ℚ) :=
  m.map (fun row => row.map (fun z => z - lg ((row.map ex).sum)))

/-- Tensor fancy-indexing `m[idx]` on the row dimension. -/
def indexRows (m : List (List ℚ)) (idx : List Nat) : List (List ℚ) :=
  idx.map (fun i => m.getD i [])

/-- Tensor fancy-indexing `v[idx]` on a 1-d label tensor. -/
def indexLabels (v : List Nat) (idx : List Nat) : List Nat :=
  idx.map (fun i => v.getD i 0)

/-- `F.nll_loss(logp, target)` with the default `'mean'` reduction:
the negative mean of `logp[i][target[i]]`. -/
def nll_loss (logp : List (List ℚ)) (target : List Nat) : ℚ :=
  -(((List.zip logp target).map (fun p => p.1.getD p.2 0)).sum) / (logp.length : ℚ)

/-- The labeled nodes of the notebook: `labeled_nodes = [0, 33]`. -/
def labeled_nodes : List Nat := [0, 33]

/-- The per-epoch training loss exactly as the notebook computes it:
log-softmax over all node logits, then NLL over the rows selected by
`labeled_nodes` against the labels selected by `labeled_nodes`. -/
def trainLoss (ex lg : ℚ → ℚ) (logits : List (List ℚ)) (labels : List Nat) : ℚ :=
  let logp := logSoftmax ex lg logits
  nll_loss (indexRows logp labeled_nodes) (indexLabels labels labeled_nodes)

/-- Row selection commutes with `log_softmax` because `log_softmax` is
row-wise. -/
theorem logSoftmax_indexRows (ex lg : ℚ → ℚ) (m : List (List ℚ)) (idx : List Nat) :
    indexRows (logSoftmax ex lg m) idx = logSoftmax ex lg (indexRows m idx) := by
  simp only [indexRows, logSoftmax, List.map_map]
  refine List.map_congr_left (fun i _ => ?_)
  simp only [Function.comp]
  rcases Nat.lt_or_ge i m.length with h | h
  · rw [List.getD_eq_getElem _ _ h, List.getD_eq_getElem _ _ (by simpa using h)]
    simp
  · rw [List.getD_eq_default _ _ h, List.getD_eq_default _ _ (by simpa using h)]
    simp

/-- C2: The training loss in every epoch is the cross-entropy
(log-softmax followed by negative log-likelihood) computed over only the
labeled nodes 0 and 33: the loss equals the same cross-entropy computed
on just rows 0 and 33, and logits and labels of the other 32 nodes never
enter the loss — two logit matrices and label vectors that agree at
nodes 0 and 33 yield the same loss. -/
theorem trainLoss_only_labeled (ex lg : ℚ → ℚ)
    (logits logits2 : List (List ℚ)) (labels labels2 : List Nat)
    (h0 : logits.getD 0 [] = logits2.getD 0 [])
    (h33 : logits.getD 33 [] = logits2.getD 33 [])
    (l0 : labels.getD 0 0 = labels2.getD 0 0)
    (l33 : labels.getD 33 0 = labels2.getD 33 0) :
    trainLoss ex lg logits labels =
      nll_loss (logSoftmax ex lg (indexRows logits labeled_nodes))
        (indexLabels labels labeled_nodes) ∧
    trainLoss ex lg logits labels = trainLoss ex lg logits2 labels2 := by
  constructor
  · simp only [trainLoss]
    rw [logSoftmax_indexRows]
  · simp only [trainLoss]
    have hrows : indexRows (logSoftmax ex lg logits) labeled_nodes =
        indexRows (logSoftmax ex lg logits2) labeled_nodes := by
      rw [logSoftmax_indexRows, logSoftmax_indexRows]
      simp only [indexRows, labeled_nodes, List.map_cons, List.map_nil, h0, h33]
    have hlabs : indexLabels labels labeled_nodes =
        indexLabels labels2 labeled_nodes := by
      simp only [indexLabels, labeled_nodes, List.map_cons, List.map_nil, l0, l33]
    rw [hrows, hlabs]

/-- Witness for C2 at concrete inputs: two logit matrices differing at
every unlabeled node but agreeing at nodes 0 and 33 give the same loss. -/
theorem trainLoss_only_labeled_witness :
    (([[1, 2], [5, 5]] : List (List ℚ)).getD 0 [] =
      (([[1, 2], [7, 8]] : List (List ℚ)).getD 0 [])) ∧
    trainLoss id id [[1, 2], [5, 5]] [1, 0] =
      trainLoss id id [[1, 2], [7, 8]] [1, 0] := by
  refine ⟨by decide, ?_⟩
  exact (trainLoss_only_labeled id id [[1, 2], [5, 5]] [[1, 2], [7, 8]]
    [1, 0] [1, 0] (by decide) (by decide) (by decide) (by decide)).2

/-! ## Training loop (notebook 2, cell 11)

`all_logits = []; for e in range(100): logits = net(g, inputs); ...;
optimizer.zero_grad(); loss.backward(); optimizer.step();
all_logits.append(logits.detach())`.  The Adam update is a PyTorch
library call; it is carried as an explicit parameter `upd` mapping the
parameter state to the next parameter state, and `fwd` maps the current
parameter state to the epoch's logits (`net(g, inputs)`). -/

/-- Run `n` iterations of the training loop: each epoch computes the
logits from the current parameters, updates the parameters, and appends
the detached logits to `all_logits`. -/
def trainLoop {P L : Type} (fwd : P → L) (upd : P → P) (p0 : P) :
    Nat → P × List L
  | 0 => (p0, [])
  | n + 1 =>
    let s := trainLoop fwd upd p0 n
    (upd s.1, s.2 ++ [fwd s.1])

/-- The notebook's training run: exactly `range(100)` iterations. -/
def training {P L : Type} (fwd : P → L) (upd : P → P) (p0 : P) : P × List L :=
  trainLoop fwd upd p0 100

/-- After `n` iterations `all_logits` holds one entry per epoch, the
logits of the `e`-fold-updated parameters. -/
theorem trainLoop_logits {P L : Type} (fwd : P → L) (upd : P → P) (p0 : P)
    (n : Nat) :
    trainLoop fwd upd p0 n =
      (upd^[n] p0, (List.range n).map (fun e => fwd (upd^[e] p0))) := by
  induction n with
  | zero => rfl
  | succ n ih =>
    simp only [trainLoop, ih, List.range_succ, List.map_append, List.map_cons,
      List.map_nil, Function.iterate_succ_apply']

/-- C3: The training loop is a fixed-iteration loop over 100 epochs: it
is a total function that performs exactly 100 iterations (no convergence
criterion, early stopping, checkpointing, or failure handling appears in
its definition), and afterwards `all_logits` contains exactly one
detached logits tensor per epoch — length 100, entry `e` being the
logits of epoch `e`. -/
theorem training_hundred_epochs {P L : Type} (fwd : P → L) (upd : P → P)
    (p0 : P) :
    (training fwd upd p0).2.length = 100 ∧
    (training fwd upd p0).2 = (List.range 100).map (fun e => fwd (upd^[e] p0)) := by
  constructor
  · simp [training, trainLoop_logits]
  · simp [training, trainLoop_logits]

/-! ## Accuracy check (notebook 2, cell 12)

`pred = torch.argmax(logits, axis=1);
print('Accuracy', (pred == labels).sum().item() / len(pred))`. -/

/-- Tail of `torch.argmax`: scan the remaining entries, keeping the index
of the first strictly greatest value seen so far. -/
def argmaxFrom {α : Type} [LinearOrder α] (bestVal : α) (bestIdx cur : Nat) :
    List α → Nat
  | [] => bestIdx
  | a :: tl =>
    if bestVal < a then argmaxFrom a cur (cur + 1) tl
    else argmaxFrom bestVal bestIdx (cur + 1) tl

/-- `torch.argmax` along a row: the index of the first occurrence of the
maximal value (0 on an empty row, where PyTorch would raise). -/
def argmax {α : Type} [LinearOrder α] : List α → Nat
  | [] => 0
  | x :: tl => argmaxFrom x 0 1 tl

/-- `pred = torch.argmax(logits, axis=1)`: row-wise argmax. -/
def pred (logits : List (List ℚ)) : List Nat :=
  logits.map argmax

/-- `(pred == labels).sum().item() / len(pred)`: the fraction of nodes
whose predicted class equals their club label. -/
def accuracy (logits : List (List ℚ)) (labels : List Nat) : ℚ :=
  (((List.zip (pred logits) labels).countP (fun p => p.1 = p.2) : ℚ)) /
    ((pred logits).length : ℚ)

/-- C4: The accuracy scalar printed after training equals the number of
nodes whose argmax over the final epoch's logits equals their club
label, divided by the total number of nodes (34); consequently it always
lies between 0 and 1. -/
theorem accuracy_fraction_of_34 (logits : List (List ℚ)) (labels : List Nat)
    (hlog : logits.length = 34) (hlab : labels.length = 34) :
    accuracy logits labels =
      ((List.zip (pred logits) labels).countP (fun p => p.1 = p.2) : ℚ) / 34 ∧
    0 ≤ accuracy logits labels ∧ accuracy logits labels ≤ 1 := by
  have hplen : (pred logits).length = 34 := by simp [pred, hlog]
  have hzlen : (List.zip (pred logits) labels).length = 34 := by
    simp [List.length_zip, hplen, hlab]
  have hcount : (List.zip (pred logits) labels).countP (fun p => p.1 = p.2) ≤ 34 :=
    hzlen ▸ List.countP_le_length _
  have hform : accuracy logits labels =
      ((List.zip (pred logits) labels).countP (fun p => p.1 = p.2) : ℚ) / 34 := by
    rw [accuracy, hplen]
    norm_num
  refine ⟨hform, ?_, ?_⟩
  · rw [hform]
    positivity
  · rw [hform]
    rw [div_le_one (by norm_num)]
    exact_mod_cast hcount

/-- Witness for C4 at a concrete 34-row logits matrix in which node 0 is
classified correctly and all others incorrectly. -/
theorem accuracy_fraction_of_34_witness :
    (List.replicate 34 ([3, 7] : List ℚ)).length = 34 ∧
    accuracy (List.replicate 34 [3, 7]) (1 :: List.replicate 33 0) = 1 / 34 := by
  refine ⟨by decide, ?_⟩
  have h := (accuracy_fraction_of_34 (List.replicate 34 [3, 7])
    (1 :: List.replicate 33 0) (by decide) (by decide)).1
  rw [h]
  norm_num [pred, argmax, argmaxFrom, List.replicate, List.zip, List.zipWith,
    List.countP, List.countP.go]

/-! ## The Zachery karate-club dataset (notebook 2, cells 4 and 8)

Modelled from the spec: `tutorial_utils.load_zachery` and the CSV data
files `data/nodes.csv` / `data/edges.csv` are part of this repository but
are not under `src/`; the spec records that the loaded graph has 34
nodes and 156 edges (both directions of the club's 78 social ties) and
that the club labels of nodes 0 and 33 — the instructor and the club
president — are 0 ('Mr. Hi') and 1 ('Officer'). -/

/-- The 78 social ties of Zachery's karate club, each once, `(lo, hi)`. -/
def karateTies : List (Nat × Nat) :=
  [(0, 1), (0, 2), (0, 3), (0, 4), (0, 5), (0, 6), (0, 7), (0, 8), (0, 10),
   (0, 11), (0, 12), (0, 13), (0, 17), (0, 19), (0, 21), (0, 31),
   (1, 2), (1, 3), (1, 7), (1, 13), (1, 17), (1, 19), (1, 21), (1, 30),
   (2, 3), (2, 7), (2, 8), (2, 9), (2, 13), (2, 27), (2, 28), (2, 32),
   (3, 7), (3, 12), (3, 13), (4, 6), (4, 10), (5, 6), (5, 10), (5, 16),
   (6, 16), (8, 30), (8, 32), (8, 33), (9, 33), (13, 33), (14, 32),
   (14, 33), (15, 32), (15, 33), (18, 32), (18, 33), (19, 33), (20, 32),
   (20, 33), (22, 32), (22, 33), (23, 25), (23, 27), (23, 29), (23, 32),
   (23, 33), (24, 25), (24, 27), (24, 31), (25, 31), (26, 29), (26, 33),
   (27, 33), (28, 31), (28, 33), (29, 32), (29, 33), (30, 32), (30, 33),
   (31, 32), (31, 33), (32, 33)]

/-- Modelled from the spec: the graph returned by
`tutorial_utils.load_zachery` (not under `src/`) — 34 club members with
every social tie recorded in both directions, 156 directed edges. -/
def load_zachery : DGLGraph :=
  { numNodes := 34
    edges := karateTies ++ karateTies.map (fun e => (e.2, e.1)) }

/-- Modelled from the spec: the `'club'` node label tensor of the loaded
graph — 0 for the instructor's ('Mr. Hi') community, 1 for the club
president's ('Officer') community, with node 0 the instructor and node
33 the president. -/
def zachery_club : List Nat :=
  [0, 0, 0, 0, 0, 0, 0, 0, 0, 1, 0, 0, 0, 0, 1, 1, 0, 0, 1, 0, 1, 0, 1,
   1, 1, 1, 1, 1, 1, 1, 1, 1, 1, 1]

set_option maxRecDepth 4000 in
/-- C5: The loaded Zachery's Karate Club graph has exactly 34 nodes and
156 edges, and the club labels of node 0 and node 33 are 0 and 1
respectively (`labels[[0, 33]] = [0, 1]`). -/
theorem load_zachery_shape :
    load_zachery.numNodes = 34 ∧ load_zachery.edges.length = 156 ∧
    indexLabels zachery_club labeled_nodes = [0, 1] := by
  refine ⟨rfl, by decide, by decide⟩

/-! ## Graph construction from CSV columns (notebook 1, cell 8) -/

/-- Every element of a list is at most the list's `foldr max 0`. -/
theorem le_foldr_max {x : Nat} : ∀ {l : List Nat}, x ∈ l → x ≤ l.foldr max 0 := by
  intro l
  induction l with
  | nil => intro h; cases h
  | cons a tl ih =>
    intro h
    rcases List.mem_cons.mp h with h | h
    · subst h; exact le_max_left _ _
    · exact le_trans (ih h) (le_max_right _ _)

/-- C6: In the graph constructed by `dgl.graph((src, dst))` from the Src
and Dst columns, node ids are the zero-based contiguous integers
`0 .. numNodes - 1` by construction, and every edge endpoint references
a valid node id: every entry of `src` and `dst` is less than the number
of nodes. -/
theorem dglGraph_edges_valid (src dst : List Nat) (e : Nat × Nat)
    (he : e ∈ (dglGraph src dst).edges) :
    e.1 < (dglGraph src dst).numNodes ∧ e.2 < (dglGraph src dst).numNodes := by
  have hmem := List.of_mem_zip he
  constructor
  · exact Nat.lt_succ_of_le (le_foldr_max (List.mem_append.mpr (Or.inl hmem.1)))
  · exact Nat.lt_succ_of_le (le_foldr_max (List.mem_append.mpr (Or.inr hmem.2)))

/-- Witness for C6 on the notebook-shaped input: concrete Src and Dst
columns whose largest id fixes the node count. -/
theorem dglGraph_edges_valid_witness :
    ((3, 1) : Nat × Nat) ∈ (dglGraph [0, 3] [1, 1]).edges ∧
    (3 : Nat) < (dglGraph [0, 3] [1, 1]).numNodes := by
  refine ⟨by decide, ?_⟩
  exact (dglGraph_edges_valid [0, 3] [1, 1] (3, 1) (by decide)).1

/-! ## Club label encoding (notebook 1, cell 27)

`club = torch.tensor([c == 'Officer' for c in club]).long();
club_onehot = F.one_hot(club)`. -/

/-- The categorical club encoding: 1 exactly when the Club string is
`'Officer'`, 0 otherwise (`'Mr. Hi'`). -/
def clubEncode (clubs : List String) : List Nat :=
  clubs.map (fun c => if c = "Officer" then 1 else 0)

/-- One row of `F.one_hot`: `numClasses` entries, 1 at position `c`,
0 elsewhere. -/
def oneHotRow (numClasses c : Nat) : List Nat :=
  (List.range numClasses).map (fun j => if j = c then 1 else 0)

/-- `F.one_hot(v)` with the default inferred class count
`max(v) + 1`. -/
def one_hot (v : List Nat) : List (List Nat) :=
  v.map (oneHotRow (v.foldr max 0 + 1))

/-- `getD` through a `map`, on an in-range index. -/
theorem getD_map_of_lt {α β : Type} (f : α → β) (l : List α) (i : Nat)
    (d : α) (d2 : β) (h : i < l.length) :
    (l.map f).getD i d2 = f (l.getD i d) := by
  rw [List.getD_eq_getElem _ _ (by simpa using h), List.getElem_map,
    List.getD_eq_getElem _ _ h]

/-- `argmaxFrom` returns the running best index when no remaining entry
beats the running best value. -/
theorem argmaxFrom_of_le {α : Type} [LinearOrder α] (bv : α) (bi : Nat)
    (l : List α) (h : ∀ a ∈ l, a ≤ bv) :
    ∀ cur, argmaxFrom bv bi cur l = bi := by
  induction l generalizing bi with
  | nil => intro cur; rfl
  | cons a tl ih =>
    intro cur
    simp only [argmaxFrom]
    rw [if_neg (not_lt.mpr (h a (List.mem_cons_self _ _)))]
    exact ih bi (fun b hb => h b (List.mem_cons_of_mem a hb)) (cur + 1)

/-- Scanning `k` zeros, then a one, then zeros, starting at position
`cur`, lands on the position of the one. -/
theorem argmaxFrom_zeros_one (m : Nat) :
    ∀ (k bi cur : Nat),
      argmaxFrom (0 : Nat) bi cur (List.replicate k 0 ++ 1 :: List.replicate m 0) =
        cur + k := by
  intro k
  induction k with
  | zero =>
    intro bi cur
    rw [List.replicate_zero, List.nil_append]
    simp only [argmaxFrom]
    rw [if_pos Nat.zero_lt_one]
    rw [argmaxFrom_of_le 1 cur _ (fun a ha => by
      rw [List.eq_of_mem_replicate ha]; exact Nat.zero_le 1)]
    omega
  | succ k ih =>
    intro bi cur
    rw [List.replicate_succ, List.cons_append]
    simp only [argmaxFrom, Nat.lt_irrefl, if_false]
    rw [ih bi (cur + 1)]
    omega

/-- A one-hot row with the hot position in range decomposes as zeros,
the one, and zeros. -/
theorem oneHotRow_decomp (c m : Nat) :
    oneHotRow (c + (m + 1)) c =
      List.replicate c 0 ++ 1 :: List.replicate m 0 := by
  unfold oneHotRow
  rw [List.range_add, List.map_append]
  congr 1
  · refine List.eq_replicate_iff.mpr ⟨by simp, ?_⟩
    intro b hb
    rcases List.mem_map.mp hb with ⟨j, hj, rfl⟩
    rw [if_neg (Nat.ne_of_lt (List.mem_range.mp hj))]
  · rw [List.map_map, List.range_succ_eq_map, List.map_cons, List.map_map]
    congr 1
    · simp only [Function.comp_apply]
      rw [if_pos (by omega)]
    · refine List.eq_replicate_iff.mpr ⟨by simp, ?_⟩
      intro b hb
      rcases List.mem_map.mp hb with ⟨j, _, rfl⟩
      simp only [Function.comp_apply]
      rw [if_neg (by omega)]

/-- `argmax` of a one-hot row recovers the hot position. -/
theorem argmax_oneHotRow (n c : Nat) (h : c < n) :
    argmax (oneHotRow n c) = c := by
  obtain ⟨m, rfl⟩ : ∃ m, n = c + (m + 1) := ⟨n - c - 1, by omega⟩
  rw [oneHotRow_decomp]
  cases c with
  | zero =>
    rw [List.replicate_zero, List.nil_append]
    simp only [argmax]
    rw [argmaxFrom_of_le 1 0 _ (fun a ha => by
      rw [List.eq_of_mem_replicate ha]; exact Nat.zero_le 1)]
  | succ k =>
    rw [List.replicate_succ, List.cons_append]
    simp only [argmax]
    rw [argmaxFrom_zeros_one m k 0 1]
    omega

/-- A one-hot row contains the entry 1 exactly once. -/
theorem count_one_oneHotRow (n c : Nat) (h : c < n) :
    (oneHotRow n c).count 1 = 1 := by
  obtain ⟨m, rfl⟩ : ∃ m, n = c + (m + 1) := ⟨n - c - 1, by omega⟩
  rw [oneHotRow_decomp]
  rw [List.count_append, List.count_cons]
  simp [List.count_replicate]

/-- C7: For every list of Club strings, the categorical encoding assigns
1 to a node exactly when its Club string equals `'Officer'` and 0
otherwise, and the derived one-hot encoding round-trips with it:
`argmax(club_onehot[i]) = club[i]`, and `club_onehot[i]` has exactly one
entry equal to 1, for every node `i`. -/
theorem club_onehot_roundtrip (clubs : List String) (i : Nat)
    (hi : i < clubs.length) :
    (clubEncode clubs).getD i 0 =
      (if clubs.getD i "" = "Officer" then 1 else 0) ∧
    argmax ((one_hot (clubEncode clubs)).getD i []) =
      (clubEncode clubs).getD i 0 ∧
    ((one_hot (clubEncode clubs)).getD i []).count 1 = 1 := by
  set club := clubEncode clubs with hclub
  have hlen : club.length = clubs.length := by
    simp [hclub, clubEncode]
  have hi2 : i < club.length := hlen ▸ hi
  have hrow : (one_hot club).getD i [] =
      oneHotRow (club.foldr max 0 + 1) (club.getD i 0) := by
    rw [one_hot, List.getD_eq_getElem _ _ (by simpa [one_hot] using hi2),
      List.getElem_map, List.getD_eq_getElem _ _ hi2]
  have hmem : club.getD i 0 ∈ club := by
    rw [List.getD_eq_getElem _ _ hi2]
    exact List.getElem_mem hi2
  have hbound : club.getD i 0 < club.foldr max 0 + 1 :=
    Nat.lt_succ_of_le (le_foldr_max hmem)
  refine ⟨?_, ?_, ?_⟩
  · rw [hclub, clubEncode, getD_map_of_lt _ _ _ "" _ hi]
  · rw [hrow, argmax_oneHotRow _ _ hbound]
  · rw [hrow, count_one_oneHotRow _ _ hbound]

/-- Witness for C7 at the concrete column `["Mr. Hi", "Officer"]`,
node 1. -/
theorem club_onehot_roundtrip_witness :
    1 < (["Mr. Hi", "Officer"] : List String).length ∧
    argmax ((one_hot (clubEncode ["Mr. Hi", "Officer"])).getD 1 []) =
      (clubEncode ["Mr. Hi", "Officer"]).getD 1 0 := by
  exact ⟨by decide, (club_onehot_roundtrip ["Mr. Hi", "Officer"] 1 (by decide)).2.1⟩

/-! ## Feature assignment and deletion (notebook 1, cells 26, 27, 29)

`g.ndata['age'] = age`, `g.ndata.update({'club': club, 'club_onehot':
club_onehot})`, `g.edata['weight'] = edge_weight`, `del g.ndata['age']`.
A DGL graph with its feature frames: DGL checks that a node (edge)
feature's first dimension equals the number of nodes (edges) and raises
otherwise, and `del` raises on a missing key; the fallible operations
return `Option`. -/

/-- A DGL graph together with its node and edge feature frames; every
feature tensor is a list of per-node (per-edge) rows. -/
structure FeatGraph where
  numNodes : Nat
  edges : List (Nat × Nat)
  ndata : String → Option (List (List ℚ))
  edata : String → Option (List (List ℚ))

/-- `g.ndata[k] = t`: succeeds iff the tensor has one row per node. -/
def setNdata (g : FeatGraph) (k : String) (t : List (List ℚ)) :
    Option FeatGraph :=
  if t.length = g.numNodes then
    some { g with ndata := fun k2 => if k2 = k then some t else g.ndata k2 }
  else none

/-- `g.ndata.update(dict)`: assign each key-value pair in order. -/
def updateNdata (g : FeatGraph) (kvs : List (String × List (List ℚ))) :
    Option FeatGraph :=
  kvs.foldlM (fun g2 kv => setNdata g2 kv.1 kv.2) g

/-- `g.edata[k] = t`: succeeds iff the tensor has one row per edge. -/
def setEdata (g : FeatGraph) (k : String) (t : List (List ℚ)) :
    Option FeatGraph :=
  if t.length = g.edges.length then
    some { g with edata := fun k2 => if k2 = k then some t else g.edata k2 }
  else none

/-- `del g.ndata[k]`: succeeds iff the key is present, and drops it. -/
def delNdata (g : FeatGraph) (k : String) : Option FeatGraph :=
  match g.ndata k with
  | none => none
  | some _ =>
    some { g with ndata := fun k2 => if k2 = k then none else g.ndata k2 }

/-- C8: Feature assignment and deletion operations (setting
`g.ndata['age']`, `g.ndata.update` with `'club'` and `'club_onehot'`,
setting `g.edata['weight']`, and `del g.ndata['age']`) never change the
graph's node set or edge set, and `del g.ndata['age']` removes only the
`'age'` key, leaving every other node feature — in particular `'club'`
and `'club_onehot'` — intact. -/
theorem feature_ops_frame :
    (∀ (g : FeatGraph) (k : String) (t : List (List ℚ)) (g2 : FeatGraph),
      setNdata g k t = some g2 → g2.numNodes = g.numNodes ∧ g2.edges = g.edges) ∧
    (∀ (g : FeatGraph) (kvs : List (String × List (List ℚ))) (g2 : FeatGraph),
      updateNdata g kvs = some g2 → g2.numNodes = g.numNodes ∧ g2.edges = g.edges) ∧
    (∀ (g : FeatGraph) (k : String) (t : List (List ℚ)) (g2 : FeatGraph),
      setEdata g k t = some g2 → g2.numNodes = g.numNodes ∧ g2.edges = g.edges) ∧
    (∀ (g g2 : FeatGraph), delNdata g "age" = some g2 →
      g2.numNodes = g.numNodes ∧ g2.edges = g.edges ∧
      g2.ndata "age" = none ∧
      ∀ k, k ≠ "age" → g2.ndata k = g.ndata k) := by
  have hset : ∀ (g : FeatGraph) (k : String) (t : List (List ℚ)) (g2 : FeatGraph),
      setNdata g k t = some g2 → g2.numNodes = g.numNodes ∧ g2.edges = g.edges := by
    intro g k t g2 h
    unfold setNdata at h
    split at h
    · cases h; exact ⟨rfl, rfl⟩
    · cases h
  refine ⟨hset, ?_, ?_, ?_⟩
  · intro g kvs
    induction kvs generalizing g with
    | nil => intro g2 h; cases h; exact ⟨rfl, rfl⟩
    | cons kv tl ih =>
      intro g2 h
      unfold updateNdata at h
      rw [List.foldlM_cons] at h
      rcases Option.bind_eq_some.mp h with ⟨gmid, hmid, hrest⟩
      have h1 := hset g kv.1 kv.2 gmid hmid
      have h2 := ih gmid g2 hrest
      exact ⟨h2.1.trans h1.1, h2.2.trans h1.2⟩
  · intro g k t g2 h
    unfold setEdata at h
    split at h
    · cases h; exact ⟨rfl, rfl⟩
    · cases h
  · intro g g2 h
    unfold delNdata at h
    split at h
    · cases h
    · cases h
      refine ⟨rfl, rfl, by simp, ?_⟩
      intro k hk
      simp [hk]

/-- A concrete two-node graph carrying an `'age'` node feature, for the
C8 witness. -/
def wG : FeatGraph :=
  { numNodes := 2
    edges := [(0, 1)]
    ndata := fun k => if k = "age" then some [[30], [40]] else none
    edata := fun _ => none }

/-- `wG` after `del g.ndata['age']`. -/
def wGdel : FeatGraph :=
  { wG with ndata := fun k2 => if k2 = "age" then none else wG.ndata k2 }

/-- `wG` after `g.ndata['club'] = [[0], [1]]`. -/
def wGset : FeatGraph :=
  { wG with ndata := fun k2 => if k2 = "club" then some [[0], [1]] else wG.ndata k2 }

/-- `wG` after `g.ndata.update({'club': ..., 'club_onehot': ...})`. -/
def wGupd : FeatGraph :=
  { wG with ndata := fun k2 =>
      if k2 = "club_onehot" then some [[1, 0], [0, 1]]
      else if k2 = "club" then some [[0], [1]] else wG.ndata k2 }

/-- `wG` after `g.edata['weight'] = [[5]]`. -/
def wGed : FeatGraph :=
  { wG with edata := fun k2 => if k2 = "weight" then some [[5]] else wG.edata k2 }

/-- Witness for C8: each of the four feature operations applied to the
concrete graph `wG` succeeds and preserves its node and edge sets, and
the deletion drops `'age'` while leaving `'club'` untouched. -/
theorem feature_ops_frame_witness :
    (wGset.numNodes = wG.numNodes ∧ wGset.edges = wG.edges) ∧
    (wGupd.numNodes = wG.numNodes ∧ wGupd.edges = wG.edges) ∧
    (wGed.numNodes = wG.numNodes ∧ wGed.edges = wG.edges) ∧
    (wGdel.numNodes = wG.numNodes ∧ wGdel.ndata "age" = none ∧
      wGdel.ndata "club" = wG.ndata "club") := by
  have h := feature_ops_frame
  have hdel := h.2.2.2 wG wGdel rfl
  exact ⟨h.1 wG "club" [[0], [1]] wGset rfl,
         h.2.1 wG [("club", [[0], [1]]), ("club_onehot", [[1, 0], [0, 1]])] wGupd rfl,
         h.2.2.1 wG "weight" [[5]] wGed rfl,
         hdel.1, hdel.2.2.1, hdel.2.2.2 "club" (by decide)⟩

/-! ## Trainable node embedding and optimizer (notebook 2, cells 6 and 11)

`node_embed = nn.Embedding(g.number_of_nodes(), 5)` and
`optimizer = torch.optim.Adam(itertools.chain(net.parameters(),
node_embed.parameters()), lr=0.01)`. -/

/-- `nn.Embedding(n, d).weight`: a dense `n × d` matrix, entry `(i, j)`
drawn by the initializer `w`. -/
def mkEmbedding (n d : Nat) (w : Nat → Nat → ℚ) : List (List ℚ) :=
  (List.range n).map (fun i => (List.range d).map (w i))

/-- `itertools.chain(net.parameters(), node_embed.parameters())`: the
list of parameter tensors handed to `torch.optim.Adam` — the model's
parameters followed by the embedding's. -/
def adamParams {T : Type} (netParams embedParams : List T) : List T :=
  netParams ++ embedParams

/-- C9: The trainable node features are a dense embedding matrix with
exactly one row per graph node (`number_of_nodes` rows, 5 columns), and
both this embedding's parameters and the model's parameters are passed
to the optimizer, so the embedding is among the tensors the optimizer
updates during training. -/
theorem node_embed_trainable (g : DGLGraph) (w : Nat → Nat → ℚ)
    (netPs : List (List (List ℚ))) :
    (mkEmbedding g.numNodes 5 w).length = g.numNodes ∧
    (∀ row ∈ mkEmbedding g.numNodes 5 w, row.length = 5) ∧
    mkEmbedding g.numNodes 5 w ∈
      adamParams netPs [mkEmbedding g.numNodes 5 w] ∧
    ∀ p ∈ netPs, p ∈ adamParams netPs [mkEmbedding g.numNodes 5 w] := by
  refine ⟨by simp [mkEmbedding], ?_, ?_, ?_⟩
  · intro row hrow
    rcases List.mem_map.mp hrow with ⟨i, _, rfl⟩
    simp
  · exact List.mem_append.mpr (Or.inr (List.mem_cons_self _ _))
  · intro p hp
    exact List.mem_append.mpr (Or.inl hp)

/-- Witness for C9 on a concrete two-node graph: the embedding has one
row per node, the concrete first row has 5 columns, and the embedding is
among the optimizer's parameter tensors. -/
theorem node_embed_trainable_witness :
    (mkEmbedding (dglGraph [0] [1]).numNodes 5 (fun _ _ => 7)).length =
      (dglGraph [0] [1]).numNodes ∧
    ([7, 7, 7, 7, 7] : List ℚ).length = 5 ∧
    mkEmbedding (dglGraph [0] [1]).numNodes 5 (fun _ _ => 7) ∈
      adamParams [[[1]]] [mkEmbedding (dglGraph [0] [1]).numNodes 5 (fun _ _ => 7)] := by
  have h := node_embed_trainable (dglGraph [0] [1]) (fun _ _ => 7) [[[1]]]
  exact ⟨h.1, h.2.1 [7, 7, 7, 7, 7] (by decide), h.2.2.1⟩

/-! ## Error propagation (notebook 1, the whole script)

The notebook contains no `try`/`except`: the script is a straight-line
chain of library calls.  We embed notebook 1 as an `Except`-chain whose
inputs are the results of the two `pd.read_csv` library calls and whose
stages are the library operations the notebook invokes in order. -/

/-- An abstract pandas `DataFrame`: numeric columns and string columns
by name. -/
structure DataFrame where
  ncols : String → Option (List Nat)
  scols : String → Option (List String)

/-- `df[name]` on a numeric column: `KeyError` when absent. -/
def getCol (df : DataFrame) (name : String) : Except String (List Nat) :=
  match df.ncols name with
  | some v => .ok v
  | none => .error ("KeyError: " ++ name)

/-- `df[name]` on a string column: `KeyError` when absent. -/
def getColS (df : DataFrame) (name : String) : Except String (List String) :=
  match df.scols name with
  | some v => .ok v
  | none => .error ("KeyError: " ++ name)

/-- Lift a fallible DGL feature operation into the script's exception
monad, tagging the failure with the library's error message. -/
def toExcept {α : Type} (e : String) : Option α → Except String α
  | some a => .ok a
  | none => .error e

/-- The freshly constructed DGL graph before any feature is attached:
empty node and edge frames. -/
def emptyFeatGraph (g0 : DGLGraph) : FeatGraph :=
  { numNodes := g0.numNodes, edges := g0.edges
    ndata := fun _ => none, edata := fun _ => none }

/-- `torch.tensor(nodes_data['Age'].to_numpy()).float() / 100`, one row
per node. -/
def ageFeat (ageCol : List Nat) : List (List ℚ) :=
  ageCol.map (fun a => [(a : ℚ) / 100])

/-- The categorical club tensor as a per-node feature column. -/
def clubFeat (club : List Nat) : List (List ℚ) :=
  club.map (fun c => [(c : ℚ)])

/-- The one-hot club tensor as a per-node feature matrix. -/
def onehotFeat (club : List Nat) : List (List ℚ) :=
  (one_hot club).map (fun r => r.map (fun x => (x : ℚ)))

/-- `torch.tensor(edges_data['Weight'].to_numpy())`, one row per edge. -/
def weightFeat (wCol : List Nat) : List (List ℚ) :=
  wCol.map (fun x => [(x : ℚ)])

/-- Notebook 1 as a straight-line script: construct the graph from the
Src/Dst columns, attach the age, club, one-hot and weight features, and
delete the age feature — each step a library call, with no handler
anywhere. -/
def notebookScript (nodesRes edgesRes : Except String DataFrame) :
    Except String FeatGraph := do
  let nodes_data ← nodesRes
  let edges_data ← edgesRes
  let src ← getCol edges_data "Src"
  let dst ← getCol edges_data "Dst"
  let g : FeatGraph := emptyFeatGraph (dglGraph src dst)
  let ageCol ← getCol nodes_data "Age"
  let g ← toExcept "DGLError: expect number of features to match number of nodes"
    (setNdata g "age" (ageFeat ageCol))
  let clubCol ← getColS nodes_data "Club"
  let club := clubEncode clubCol
  let g ← toExcept "DGLError: expect number of features to match number of nodes"
    (updateNdata g [("club", clubFeat club), ("club_onehot", onehotFeat club)])
  let g ← toExcept "KeyError: age" (delNdata g "age")
  let wCol ← getCol edges_data "Weight"
  let g ← toExcept "DGLError: expect number of features to match number of edges"
    (setEdata g "weight" (weightFeat wCol))
  pure g

/-- `Except` bind steps through a success. -/
theorem except_bind_ok {α β : Type} (a : α) (f : α → Except String β) :
    ((Except.ok a : Except String α) >>= f) = f a := rfl

/-- `Except` bind short-circuits on an error. -/
theorem except_bind_error {α β : Type} (e : String) (f : α → Except String β) :
    ((Except.error e : Except String α) >>= f) = Except.error e := rfl

/-- `toExcept` on a successful library operation. -/
theorem toExcept_some {α : Type} (e : String) (a : α) :
    toExcept e (some a) = .ok a := rfl

/-- `toExcept` on a failed library operation. -/
theorem toExcept_none {α : Type} (e : String) :
    toExcept e (none : Option α) = .error e := rfl

/-- `pure` in the script's exception monad is success. -/
theorem except_pure {α : Type} (a : α) :
    (pure a : Except String α) = .ok a := rfl

/-- A nodes table whose `Age` column has three rows — one too many for
the two-node graph built from `smallEdges`. -/
def mismatchNodes : DataFrame :=
  { ncols := fun k => if k = "Age" then some [30, 40, 50] else none
    scols := fun k => if k = "Club" then some ["Mr. Hi", "Officer", "Officer"] else none }

/-- An edges table with a single edge `0 → 1`. -/
def smallEdges : DataFrame :=
  { ncols := fun k =>
      if k = "Src" then some [0]
      else if k = "Dst" then some [1]
      else if k = "Weight" then some [7] else none
    scols := fun _ => none }

/-- C10: The repository's own code defines no error handling: for every
input on which a delegated library call fails, the failure propagates as
that library's exception unchanged, no recovery or retry is attempted,
and no graph is produced.  One conjunct per library call of the script,
in cell order, each universally quantified over all inputs on which the
preceding calls succeed and that call is the first to fail: the script's
result is then exactly that call's error.  The final conjunct shows a
graph results only when every call succeeds. -/
theorem no_error_handling :
    (∀ (e : String) (edgesRes : Except String DataFrame),
      notebookScript (.error e) edgesRes = .error e) ∧
    (∀ (nodes : DataFrame) (e : String),
      notebookScript (.ok nodes) (.error e) = .error e) ∧
    (∀ (nodes edges : DataFrame) (e : String),
      getCol edges "Src" = .error e →
      notebookScript (.ok nodes) (.ok edges) = .error e) ∧
    (∀ (nodes edges : DataFrame) (src : List Nat) (e : String),
      getCol edges "Src" = .ok src → getCol edges "Dst" = .error e →
      notebookScript (.ok nodes) (.ok edges) = .error e) ∧
    (∀ (nodes edges : DataFrame) (src dst : List Nat) (e : String),
      getCol edges "Src" = .ok src → getCol edges "Dst" = .ok dst →
      getCol nodes "Age" = .error e →
      notebookScript (.ok nodes) (.ok edges) = .error e) ∧
    (∀ (nodes edges : DataFrame) (src dst ageCol : List Nat),
      getCol edges "Src" = .ok src → getCol edges "Dst" = .ok dst →
      getCol nodes "Age" = .ok ageCol →
      setNdata (emptyFeatGraph (dglGraph src dst)) "age" (ageFeat ageCol) = none →
      notebookScript (.ok nodes) (.ok edges) =
        .error "DGLError: expect number of features to match number of nodes") ∧
    (∀ (nodes edges : DataFrame) (src dst ageCol : List Nat) (g1 : FeatGraph)
        (e : String),
      getCol edges "Src" = .ok src → getCol edges "Dst" = .ok dst →
      getCol nodes "Age" = .ok ageCol →
      setNdata (emptyFeatGraph (dglGraph src dst)) "age" (ageFeat ageCol) = some g1 →
      getColS nodes "Club" = .error e →
      notebookScript (.ok nodes) (.ok edges) = .error e) ∧
    (∀ (nodes edges : DataFrame) (src dst ageCol : List Nat) (g1 : FeatGraph)
        (clubCol : List String),
      getCol edges "Src" = .ok src → getCol edges "Dst" = .ok dst →
      getCol nodes "Age" = .ok ageCol →
      setNdata (emptyFeatGraph (dglGraph src dst)) "age" (ageFeat ageCol) = some g1 →
      getColS nodes "Club" = .ok clubCol →
      updateNdata g1 [("club", clubFeat (clubEncode clubCol)),
                      ("club_onehot", onehotFeat (clubEncode clubCol))] = none →
      notebookScript (.ok nodes) (.ok edges) =
        .error "DGLError: expect number of features to match number of nodes") ∧
    (∀ (nodes edges : DataFrame) (src dst ageCol : List Nat) (g1 g2 : FeatGraph)
        (clubCol : List String),
      getCol edges "Src" = .ok src → getCol edges "Dst" = .ok dst →
      getCol nodes "Age" = .ok ageCol →
      setNdata (emptyFeatGraph (dglGraph src dst)) "age" (ageFeat ageCol) = some g1 →
      getColS nodes "Club" = .ok clubCol →
      updateNdata g1 [("club", clubFeat (clubEncode clubCol)),
                      ("club_onehot", onehotFeat (clubEncode clubCol))] = some g2 →
      delNdata g2 "age" = none →
      notebookScript (.ok nodes) (.ok edges) = .error "KeyError: age") ∧
    (∀ (nodes edges : DataFrame) (src dst ageCol : List Nat)
        (g1 g2 g3 : FeatGraph) (clubCol : List String) (e : String),
      getCol edges "Src" = .ok src → getCol edges "Dst" = .ok dst →
      getCol nodes "Age" = .ok ageCol →
      setNdata (emptyFeatGraph (dglGraph src dst)) "age" (ageFeat ageCol) = some g1 →
      getColS nodes "Club" = .ok clubCol →
      updateNdata g1 [("club", clubFeat (clubEncode clubCol)),
                      ("club_onehot", onehotFeat (clubEncode clubCol))] = some g2 →
      delNdata g2 "age" = some g3 →
      getCol edges "Weight" = .error e →
      notebookScript (.ok nodes) (.ok edges) = .error e) ∧
    (∀ (nodes edges : DataFrame) (src dst ageCol wCol : List Nat)
        (g1 g2 g3 : FeatGraph) (clubCol : List String),
      getCol edges "Src" = .ok src → getCol edges "Dst" = .ok dst →
      getCol nodes "Age" = .ok ageCol →
      setNdata (emptyFeatGraph (dglGraph src dst)) "age" (ageFeat ageCol) = some g1 →
      getColS nodes "Club" = .ok clubCol →
      updateNdata g1 [("club", clubFeat (clubEncode clubCol)),
                      ("club_onehot", onehotFeat (clubEncode clubCol))] = some g2 →
      delNdata g2 "age" = some g3 →
      getCol edges "Weight" = .ok wCol →
      setEdata g3 "weight" (weightFeat wCol) = none →
      notebookScript (.ok nodes) (.ok edges) =
        .error "DGLError: expect number of features to match number of edges") ∧
    (∀ (nodes edges : DataFrame) (src dst ageCol wCol : List Nat)
        (g1 g2 g3 g4 : FeatGraph) (clubCol : List String),
      getCol edges "Src" = .ok src → getCol edges "Dst" = .ok dst →
      getCol nodes "Age" = .ok ageCol →
      setNdata (emptyFeatGraph (dglGraph src dst)) "age" (ageFeat ageCol) = some g1 →
      getColS nodes "Club" = .ok clubCol →
      updateNdata g1 [("club", clubFeat (clubEncode clubCol)),
                      ("club_onehot", onehotFeat (clubEncode clubCol))] = some g2 →
      delNdata g2 "age" = some g3 →
      getCol edges "Weight" = .ok wCol →
      setEdata g3 "weight" (weightFeat wCol) = some g4 →
      notebookScript (.ok nodes) (.ok edges) = .ok g4) := by
  refine ⟨fun e edgesRes => rfl, fun nodes e => rfl, ?_, ?_, ?_, ?_, ?_, ?_, ?_, ?_, ?_, ?_⟩
  · intro nodes edges e h1
    simp only [notebookScript, except_bind_ok, except_bind_error, h1]
  · intro nodes edges src e h1 h2
    simp only [notebookScript, except_bind_ok, except_bind_error, h1, h2]
  · intro nodes edges src dst e h1 h2 h3
    simp only [notebookScript, except_bind_ok, except_bind_error, h1, h2, h3]
  · intro nodes edges src dst ageCol h1 h2 h3 h4
    simp only [notebookScript, except_bind_ok, except_bind_error, toExcept_none,
      h1, h2, h3, h4]
  · intro nodes edges src dst ageCol g1 e h1 h2 h3 h4 h5
    simp only [notebookScript, except_bind_ok, except_bind_error, toExcept_some,
      h1, h2, h3, h4, h5]
  · intro nodes edges src dst ageCol g1 clubCol h1 h2 h3 h4 h5 h6
    simp only [notebookScript, except_bind_ok, except_bind_error, toExcept_some,
      toExcept_none, h1, h2, h3, h4, h5, h6]
  · intro nodes edges src dst ageCol g1 g2 clubCol h1 h2 h3 h4 h5 h6 h7
    simp only [notebookScript, except_bind_ok, except_bind_error, toExcept_some,
      toExcept_none, h1, h2, h3, h4, h5, h6, h7]
  · intro nodes edges src dst ageCol g1 g2 g3 clubCol e h1 h2 h3 h4 h5 h6 h7 h8
    simp only [notebookScript, except_bind_ok, except_bind_error, toExcept_some,
      h1, h2, h3, h4, h5, h6, h7, h8]
  · intro nodes edges src dst ageCol wCol g1 g2 g3 clubCol h1 h2 h3 h4 h5 h6 h7 h8 h9
    simp only [notebookScript, except_bind_ok, except_bind_error, toExcept_some,
      toExcept_none, h1, h2, h3, h4, h5, h6, h7, h8, h9]
  · intro nodes edges src dst ageCol wCol g1 g2 g3 g4 clubCol h1 h2 h3 h4 h5 h6 h7 h8 h9
    simp only [notebookScript, except_bind_ok, except_bind_error, toExcept_some,
      except_pure, h1, h2, h3, h4, h5, h6, h7, h8, h9]

/-- Witness for C10 at the concrete tables: the shape-mismatched age
assignment is the first failing library call, and the script aborts with
exactly the graph library's error. -/
theorem no_error_handling_witness :
    getCol smallEdges "Src" = .ok [0] ∧
    setNdata (emptyFeatGraph (dglGraph [0] [1])) "age" (ageFeat [30, 40, 50]) = none ∧
    notebookScript (.ok mismatchNodes) (.ok smallEdges) =
      .error "DGLError: expect number of features to match number of nodes" := by
  refine ⟨rfl, rfl, ?_⟩
  exact no_error_handling.2.2.2.2.2.1 mismatchNodes smallEdges [0] [1] [30, 40, 50]
    rfl rfl rfl rfl

end KarateClub
